import Mathlib

/-!
Verification development for the ThingsBoard telemetry proxy
(INNOWATT_BACKEND.py and ping.py).

The Python source is shallowly embedded: JSON values that flow through the
normalizer are classified by the outcome of the one operation the code applies
to them (the builtin float coercion), a raw upstream response is an ordered
association list from key names to lists of entries, fallible Python code is
translated to Except over a small error type (IndexError, KeyError, TypeError),
and the effectful HTTP layer is translated to explicit state passing over an
environment that fixes the outcome of each successive POST to the auth endpoint
and each successive GET to the telemetry endpoint.
-/

namespace Innowatt

/-- Classification of a Python/JSON value by what the builtin float coercion
does to it, which is the only operation the backend applies to entry values
before passing them through verbatim: a numeric value (int or float), a string
that float parses (carrying the parsed rational), or a value on which float
raises ValueError or TypeError (non-numeric string, None, list, dict). -/
inductive PyVal where
  | num (q : Rat)
  | numStr (q : Rat)
  | badVal
deriving DecidableEq, Repr

/-- Python float(v) as a partial function on the classified values. -/
def pyFloat? : PyVal → Option Rat
  | .num q => some q
  | .numStr q => some q
  | .badVal => none

/-- One upstream telemetry record, a JSON object that may carry a value field
and a ts field (epoch milliseconds). A missing field is none. -/
structure Entry where
  value : Option PyVal
  ts : Option Int
deriving DecidableEq, Repr

/-- A parsed upstream response body: an ordered mapping from upstream key name
to the ordered list of records for that key (a Python dict in insertion
order). -/
abbrev RawResponse := List (String × List Entry)

/-- Python dict lookup data.get(k): first binding for the key, none if absent. -/
def dictLookup : RawResponse → String → Option (List Entry)
  | [], _ => none
  | (k, v) :: rest, key => if k = key then some v else dictLookup rest key

/-- Python membership test: k in data. -/
def containsKey (d : RawResponse) (k : String) : Bool :=
  (dictLookup d k).isSome

/-- TELEMETRY_KEY_MAPPING from INNOWATT_BACKEND.py: standardized lowercase
keys to the ThingsBoard key-name variants, in declared order. -/
def TELEMETRY_KEY_MAPPING : List (String × List String) :=
  [("voltage", ["Voltage", "voltage", "VOLTAGE"]),
   ("current", ["Current", "current", "CURRENT"]),
   ("power", ["Power", "power", "POWER"]),
   ("energy", ["Energy", "energy", "ENERGY"]),
   ("frequency", ["Frequency", "frequency", "FREQUENCY"]),
   ("powerfact", ["PowerFact", "PF", "powerfactor", "Power_Factor"]),
   ("rmp", ["RMP", "rmp", "Rmp"])]

/-- TELEMETRY_KEY_MAPPING.get(key, dflt). -/
def tkmGet (key : String) (dflt : List String) : List String :=
  match TELEMETRY_KEY_MAPPING.lookup key with
  | some vs => vs
  | none => dflt

/-- The canonical metric keys: the keys of the mapping table. -/
def canonicalKeys : List String :=
  TELEMETRY_KEY_MAPPING.map Prod.fst

/-- find_matching_key: scan the possible keys in declared order, return the
first one present in the response, none if no variant matches. -/
def find_matching_key (data : RawResponse) : List String → Option String
  | [] => none
  | key :: rest =>
    if containsKey data key then some key else find_matching_key data rest

/-- Python exceptions that the embedded code can raise or catch. -/
inductive PyError where
  | indexError
  | keyError
  | typeError
deriving DecidableEq, Repr

/-- The try/float/except block of get_value_and_timestamp applied to the
(optional) value field of an entry: float(entry.get("value", 0.0)) with
ValueError/TypeError degrading to 0.0. -/
def pyCoerce (ov : Option PyVal) : Rat :=
  match ov with
  | none => 0
  | some v => (pyFloat? v).getD 0

/-- get_value_and_timestamp: resolve the standard key over its variants, then
read entry 0 of the matched list. The Python code indexes
data.get(actual_key, [dict()])[0], so a matched key whose list is empty raises
IndexError (the default singleton is not used: the key is present). The float
coercion of the value is guarded by try/except, and the ts field is read
afterwards regardless. -/
def get_value_and_timestamp (data : RawResponse) (standard_key : String) :
    Except PyError (Rat × Option Int) :=
  let possible_keys := tkmGet standard_key [standard_key]
  match find_matching_key data possible_keys with
  | none => .ok (0, none)
  | some actual_key =>
    if actual_key = "" then .ok (0, none)
    else
      match (dictLookup data actual_key).getD [{ value := none, ts := none }] with
      | [] => .error .indexError
      | entry :: _ => .ok (pyCoerce entry.value, entry.ts)

/-- process_telemetry_data output for the snapshot endpoint, with the
ngrok_url field the handler attaches afterwards. The Python handler also
derives no other fields. start and end date strings do not appear here. -/
structure Snapshot where
  power : Rat
  power_timestamp : Option Int
  voltage : Rat
  voltage_timestamp : Option Int
  current : Rat
  current_timestamp : Option Int
  frequency : Rat
  frequency_timestamp : Option Int
  rmp : Rat
  rmp_timestamp : Option Int
  energy : Rat
  energy_timestamp : Option Int
  powerfactor : Rat
  powerfactor_timestamp : Option Int
  timestamp : Int
  online : Bool
  ngrok_url : Option PyVal
deriving DecidableEq, Repr

/-- process_telemetry_data: None on a falsy (empty) dict, otherwise the flat
snapshot object assembled from get_value_and_timestamp on the seven canonical
keys, with the current epoch-ms time and online true. The now argument stands
for int(time.time() * 1000). -/
def process_telemetry_data (d : RawResponse) (now : Int) :
    Except PyError (Option Snapshot) :=
  if d.isEmpty then .ok none
  else do
    let p ← get_value_and_timestamp d "power"
    let v ← get_value_and_timestamp d "voltage"
    let c ← get_value_and_timestamp d "current"
    let f ← get_value_and_timestamp d "frequency"
    let r ← get_value_and_timestamp d "rmp"
    let e ← get_value_and_timestamp d "energy"
    let pf ← get_value_and_timestamp d "powerfact"
    pure (some
      { power := p.1, power_timestamp := p.2,
        voltage := v.1, voltage_timestamp := v.2,
        current := c.1, current_timestamp := c.2,
        frequency := f.1, frequency_timestamp := f.2,
        rmp := r.1, rmp_timestamp := r.2,
        energy := e.1, energy_timestamp := e.2,
        powerfactor := pf.1, powerfactor_timestamp := pf.2,
        timestamp := now, online := true, ngrok_url := none })

/-! ### The weekly/monthly point-building loop -/

/-- Python's x or dflt on an optional string: the default replaces both None
and the empty string. -/
def orDefault (o : Option String) (dflt : String) : String :=
  match o with
  | some s => if s = "" then dflt else s
  | none => dflt

/-- The actual upstream key used by the weekly/monthly handlers for a
canonical key: find_matching_key over the variant list, or the canonical
name itself when nothing matches. -/
def actualKey (d : RawResponse) (ck : String) : String :=
  orDefault (find_matching_key d (tkmGet ck [ck])) ck

/-- Python dict item access data[k]: KeyError when absent. -/
def dictGetItem (d : RawResponse) (k : String) : Except PyError (List Entry) :=
  match dictLookup d k with
  | some l => .ok l
  | none => .error .keyError

/-- Python list indexing l[i]: IndexError when out of range. -/
def listGetItem (l : List Entry) (i : Nat) : Except PyError Entry :=
  match l.get? i with
  | some e => .ok e
  | none => .error .indexError

/-- Python item access entry["ts"]: KeyError when the field is absent. -/
def entryTs (e : Entry) : Except PyError Int :=
  match e.ts with
  | some t => .ok t
  | none => .error .keyError

/-- Python item access entry["value"]: KeyError when the field is absent. -/
def entryValue (e : Entry) : Except PyError PyVal :=
  match e.value with
  | some v => .ok v
  | none => .error .keyError

/-- One companion-metric field of an output record:
data[k][i]["value"] if i < len(data.get(k, [])) else 0. -/
def companionAt (d : RawResponse) (k : String) (i : Nat) : Except PyError PyVal :=
  match ((dictLookup d k).getD []).get? i with
  | some e => entryValue e
  | none => .ok (.num 0)

/-- One record of the weekly/monthly output series. -/
structure SeriesPoint where
  timestamp : Int
  power : PyVal
  voltage : PyVal
  current : PyVal
  frequency : PyVal
  rmp : PyVal
  energy : PyVal
deriving DecidableEq, Repr

/-- The record built at loop index i by the weekly/monthly handlers:
timestamp and power from the power series (plain item accesses), the five
companion metrics zero-padded past the end of their series. -/
def build_point (d : RawResponse) (pk vk ck fk rk ek : String) (i : Nat) :
    Except PyError SeriesPoint := do
  let plist ← dictGetItem d pk
  let pe ← listGetItem plist i
  let t ← entryTs pe
  let pv ← entryValue pe
  let vv ← companionAt d vk i
  let cv ← companionAt d ck i
  let fv ← companionAt d fk i
  let rv ← companionAt d rk i
  let ev ← companionAt d ek i
  pure { timestamp := t, power := pv, voltage := vv, current := cv,
         frequency := fv, rmp := rv, energy := ev }

/-- The for-loop of the weekly/monthly handlers, appending one record per
index; an exception aborts the loop. -/
def build_loop (d : RawResponse) (pk vk ck fk rk ek : String) :
    List Nat → Except PyError (List SeriesPoint)
  | [] => .ok []
  | i :: rest => do
    let pt ← build_point d pk vk ck fk rk ek i
    let pts ← build_loop d pk vk ck fk rk ek rest
    pure (pt :: pts)

/-- The identical point-processing section of get_weekly_telemetry and
get_monthly_telemetry: resolve the six actual keys, take the power series
length as max_points and build one record per index. -/
def build_series_points (d : RawResponse) : Except PyError (List SeriesPoint) :=
  let pk := actualKey d "power"
  let vk := actualKey d "voltage"
  let ck := actualKey d "current"
  let fk := actualKey d "frequency"
  let rk := actualKey d "rmp"
  let ek := actualKey d "energy"
  let maxPoints := ((dictLookup d pk).getD []).length
  build_loop d pk vk ck fk rk ek (List.range maxPoints)

/-- The claim-side description of a companion field: the series' raw value at
index i when it has more than i points, 0 otherwise. -/
def companionVal (d : RawResponse) (k : String) (i : Nat) : PyVal :=
  match ((dictLookup d k).getD []).get? i with
  | some e => e.value.getD (.num 0)
  | none => .num 0

/-- The record the claim describes at index i of the output series, for a
power series plist: timestamp and raw power value from the power entry at i,
companions zero-padded. The none branch is never reached for i below the
power series length. -/
def pointAt (d : RawResponse) (plist : List Entry) (i : Nat) : SeriesPoint :=
  match plist.get? i with
  | some e =>
    { timestamp := e.ts.getD 0, power := e.value.getD .badVal,
      voltage := companionVal d (actualKey d "voltage") i,
      current := companionVal d (actualKey d "current") i,
      frequency := companionVal d (actualKey d "frequency") i,
      rmp := companionVal d (actualKey d "rmp") i,
      energy := companionVal d (actualKey d "energy") i }
  | none =>
    { timestamp := 0, power := .badVal, voltage := .badVal,
      current := .badVal, frequency := .badVal, rmp := .badVal,
      energy := .badVal }

/-- Concrete response for exercising the series alignment: a power series of
two points and a voltage series of one point. -/
def dC2 : RawResponse :=
  [("Power", [{ value := some (.num 1), ts := some 100 },
              { value := some (.num 2), ts := some 200 }]),
   ("voltage", [{ value := some (.num 3), ts := some 100 }])]

/-! ### The HTTP layer: environment, trace state, auth and fetch -/

/-- Outcome of one GET to the upstream telemetry endpoint: a parsed response
with a status code, or a network-level RequestException. -/
inductive GetOutcome where
  | resp (status : Nat) (body : RawResponse)
  | netErr
deriving DecidableEq, Repr

/-- Outcome of one POST to the upstream login endpoint: a response with a
status code and the token field of its JSON body (none if absent), or a
network-level RequestException. -/
inductive PostOutcome where
  | resp (status : Nat) (token : Option String)
  | netErr
deriving DecidableEq, Repr

/-- The fixed outside world of one request: connectivity probe outcome, the
statically configured TB_JWT_TOKEN, and the outcome of the n-th POST to the
login endpoint and of the n-th GET to the telemetry endpoint. The library
session's adapter-level status retries sit below this abstraction: each
index is one http.post or http.get call made by the application code. -/
structure Env where
  internet : Bool
  jwt : Option String
  posts : Nat → PostOutcome
  gets : Nat → GetOutcome

/-- The query parameters of one telemetry GET as the code builds them: the
expanded, deduplicated variant list joined into the keys parameter, and any
of startTs/endTs/interval/limit that were supplied and truthy. -/
structure FetchRequest where
  keys : Option (List String)
  startTs : Option Int
  endTs : Option Int
  interval : Option Int
  limit : Option Int
deriving DecidableEq, Repr

/-- Instrumentation state threaded through a request: how many login POSTs
and telemetry GETs have been issued, how many times get_auth_token was
invoked, the sleeps performed (seconds, in order), and the parameters of
each telemetry GET issued. -/
structure St where
  postIdx : Nat
  getIdx : Nat
  authCalls : Nat
  sleeps : List Nat
  requests : List FetchRequest
deriving DecidableEq, Repr

/-- The state at the start of handling one request. -/
def initSt : St :=
  { postIdx := 0, getIdx := 0, authCalls := 0, sleeps := [], requests := [] }

/-- Python truthiness of an optional string: present and nonempty. -/
def pyTruthy : Option String → Bool
  | some s => decide (s ≠ "")
  | none => false

/-- response.raise_for_status() raises exactly for 4xx and 5xx statuses. -/
def errStatus (s : Nat) : Bool :=
  decide (400 ≤ s) && decide (s < 600)

/-- check_internet_connection: the connectivity probe, a boolean. -/
def check_internet_connection (env : Env) : Bool :=
  env.internet

/-- A login attempt outcome on which get_auth_token retries: a network-level
RequestException, or a non-401 response whose raise_for_status raises. -/
def postFails : PostOutcome → Bool
  | .resp s _ => decide (s ≠ 401) && errStatus s
  | .netErr => true

/-- The for attempt in range(3) loop of get_auth_token. A 401 returns None at
once; other error responses and network errors sleep 2 to the power attempt
(only when attempt < 2) and continue; a non-error response returns the token
field of its body. -/
def authLoop (env : Env) : List Nat → St → Option String × St
  | [], st => (none, st)
  | a :: rest, st =>
    match env.posts st.postIdx with
    | .resp s tok =>
      let st1 : St := { st with postIdx := st.postIdx + 1 }
      if s = 401 then (none, st1)
      else if errStatus s then
        let st2 : St :=
          if a < 2 then { st1 with sleeps := st1.sleeps ++ [2 ^ a] } else st1
        authLoop env rest st2
      else (tok, st1)
    | .netErr =>
      let st1 : St := { st with postIdx := st.postIdx + 1 }
      let st2 : St :=
        if a < 2 then { st1 with sleeps := st1.sleeps ++ [2 ^ a] } else st1
      authLoop env rest st2

/-- get_auth_token: None at once without any POST when the connectivity probe
fails, otherwise up to three login attempts. The authCalls counter records
the invocation itself. -/
def get_auth_token (env : Env) (st : St) : Option String × St :=
  let st1 : St := { st with authCalls := st.authCalls + 1 }
  if env.internet then authLoop env [0, 1, 2] st1 else (none, st1)

/-- The expected backoff sleeps after k failed attempts (each slept because
the failed attempt index was below 2). -/
def backoffs (k : Nat) : List Nat :=
  (List.range k).map fun a => 2 ^ a

/-- The token get_auth_token returns, as a function of the environment and of
how many POSTs were already consumed; the rest of the state does not affect
it. -/
def authFst (env : Env) (i : Nat) : Option String :=
  (get_auth_token env { initSt with postIdx := i }).1

/-- Python str.lower() on the ASCII key names this service uses, written as a
structural map over the characters so that proofs can evaluate it. -/
def asciiLower (s : String) : String :=
  String.mk (s.data.map Char.toLower)

/-- The keys-parameter expansion of fetch_telemetry: each standardized key is
lowered and replaced by its variant list (or kept as itself when unmapped),
and the combined list is deduplicated. Python joins set(tb_keys), whose
iteration order is unspecified; the embedding keeps first occurrences, and
every statement about the keys parameter is membership-based. -/
def expand_tb_keys (keys : List String) : List String :=
  (keys.foldl (fun acc k => acc ++ tkmGet (asciiLower k) [k]) []).eraseDups

/-- Python truthiness of an optional integer parameter: present and nonzero. -/
def optTruthyInt : Option Int → Option Int
  | some v => if v = 0 then none else some v
  | none => none

/-- The params dict fetch_telemetry sends: keys only when the list argument is
truthy, and each time parameter only when truthy. -/
def buildRequest (keys : Option (List String))
    (start_ts end_ts interval limit : Option Int) : FetchRequest :=
  { keys :=
      match keys with
      | some ks => if ks.isEmpty then none else some (expand_tb_keys ks)
      | none => none,
    startTs := optTruthyInt start_ts,
    endTs := optTruthyInt end_ts,
    interval := optTruthyInt interval,
    limit := optTruthyInt limit }

/-- fetch_telemetry: None without any GET when the token is falsy or the
connectivity probe fails; otherwise one GET, and on a 401 exactly one
re-authentication followed (when the new token is truthy) by exactly one
retried GET with the same params. raise_for_status failures and network
errors are caught and become None; a falsy refreshed token leaves the 401
response in place, whose raise_for_status likewise becomes None. -/
def fetch_telemetry (env : Env) (token : Option String)
    (keys : Option (List String)) (start_ts end_ts interval limit : Option Int)
    (st : St) : Option RawResponse × St :=
  if !(pyTruthy token) || !(check_internet_connection env) then (none, st)
  else
    let req := buildRequest keys start_ts end_ts interval limit
    let o := env.gets st.getIdx
    let st1 : St :=
      { st with getIdx := st.getIdx + 1, requests := st.requests ++ [req] }
    match o with
    | .netErr => (none, st1)
    | .resp s body =>
      if s = 401 then
        let (newTok, st2) := get_auth_token env st1
        if pyTruthy newTok then
          let o2 := env.gets st2.getIdx
          let st3 : St :=
            { st2 with getIdx := st2.getIdx + 1,
                       requests := st2.requests ++ [req] }
          match o2 with
          | .netErr => (none, st3)
          | .resp s2 body2 =>
            if errStatus s2 then (none, st3) else (some body2, st3)
        else (none, st2)
      else if errStatus s then (none, st1)
      else (some body, st1)

/-- Environment in which every login POST times out. -/
def envC4 : Env :=
  { internet := true, jwt := none,
    posts := fun _ => .netErr,
    gets := fun _ => .netErr }

/-- A nonempty parsed body for the retried telemetry GET. -/
def bodyC3 : RawResponse :=
  [("Power", [{ value := some (.num 7), ts := some 1 }])]

/-- Environment for the fetch retry counterexample: first GET 401, login
succeeds with a fresh token, retried GET answers 500 with a parsed body. -/
def envC3 : Env :=
  { internet := true, jwt := none,
    posts := fun _ => .resp 200 (some "fresh"),
    gets := fun n => if n = 0 then .resp 401 [] else .resp 500 bodyC3 }

/-- Environment for the fetch retry witness: first GET 401, login succeeds,
retried GET answers 200 with a parsed body. -/
def envC3w : Env :=
  { internet := true, jwt := none,
    posts := fun _ => .resp 200 (some "fresh"),
    gets := fun n => if n = 0 then .resp 401 [] else .resp 200 bodyC3 }

/-- Environment for the fetch precondition witness. -/
def envC7 : Env :=
  { internet := true, jwt := none,
    posts := fun _ => .resp 200 (some "fresh"),
    gets := fun _ => .resp 200 [] }

/-- Environment with a static token configured whose first telemetry GET
answers 401: the refresh path performs a live login. -/
def envC6 : Env :=
  { internet := true, jwt := some "statictoken",
    posts := fun _ => .resp 200 (some "fresh"),
    gets := fun n => if n = 0 then .resp 401 [] else
      .resp 200 [("Power", [{ value := some (.num 5), ts := some 10 }])] }

/-- Environment with a static token whose telemetry GETs fail at network
level (no 401 anywhere). -/
def envC6w : Env :=
  { internet := true, jwt := some "statictoken",
    posts := fun _ => .resp 200 (some "fresh"),
    gets := fun _ => .netErr }

/-- Environment for exercising the series handlers' query parameters. -/
def envC8 : Env :=
  { internet := true, jwt := some "statictoken",
    posts := fun _ => .resp 200 (some "fresh"),
    gets := fun _ => .netErr }

/-- Environment whose telemetry GET succeeds with an empty JSON object. -/
def envC10 : Env :=
  { internet := true, jwt := some "statictoken",
    posts := fun _ => .resp 200 (some "fresh"),
    gets := fun _ => .resp 200 [] }

/-- Environment whose telemetry GET fails at network level. -/
def envC10f : Env :=
  { internet := true, jwt := some "statictoken",
    posts := fun _ => .resp 200 (some "fresh"),
    gets := fun _ => .netErr }

/-! ### The HTTP handlers -/

/-- An endpoint's JSON answer: a 200 body, or an error object with its HTTP
status, message and online flag. -/
inductive ApiResp (α : Type) where
  | ok (body : α)
  | err (status : Nat) (error : String) (online : Bool)
deriving DecidableEq, Repr

/-- The ngrok_url resolution loop of get_telemetry: first of the three
spellings bound to a truthy (nonempty) list whose first entry has a value
field; KeyError inside the try continues with the next spelling. -/
def resolve_ngrok_loop (d : RawResponse) : List String → Option PyVal
  | [] => none
  | k :: rest =>
    match dictLookup d k with
    | some (e :: _) =>
      match e.value with
      | some v => some v
      | none => resolve_ngrok_loop d rest
    | _ => resolve_ngrok_loop d rest

/-- The canonical keys the snapshot endpoint requests. -/
def snapshotKeys : List String :=
  ["power", "voltage", "current", "frequency", "rmp", "energy", "powerfact",
   "ngrok_url"]

/-- The canonical keys the weekly and monthly endpoints request. -/
def seriesKeys : List String :=
  ["power", "voltage", "current", "frequency", "rmp", "energy"]

/-- get_time_range(days) with now standing for int(time.time() * 1000):
(start_ts, end_ts). -/
def get_time_range (now : Int) (days : Int) : Int × Int :=
  (now - days * 24 * 60 * 60 * 1000, now)

/-- GET /api/telemetry: static token if truthy else live login; 401 error
object when no token; fetch over the eight keys with no time bounds; 500
error object when the fetch result is falsy (None or the empty dict);
otherwise the processed snapshot with the ngrok_url field attached. -/
def get_telemetry (env : Env) (now : Int) (st : St) :
    Except PyError (ApiResp Snapshot) × St :=
  let (token, st1) :=
    if pyTruthy env.jwt then (env.jwt, st) else get_auth_token env st
  if !(pyTruthy token) then
    (.ok (.err 401 "Authentication failed" false), st1)
  else
    let (td, st2) := fetch_telemetry env token (some snapshotKeys)
      none none none none st1
    match td with
    | none => (.ok (.err 500 "Could not fetch telemetry" false), st2)
    | some d =>
      if d.isEmpty then
        (.ok (.err 500 "Could not fetch telemetry" false), st2)
      else
        match process_telemetry_data d now with
        | .error pe => (.error pe, st2)
        | .ok none => (.error .typeError, st2)
        | .ok (some snap) =>
          let ng := resolve_ngrok_loop d ["ngrok_url", "Ngrok_Url", "NGROK_URL"]
          (.ok (.ok { snap with ngrok_url := ng }), st2)

/-- The 200 body of the weekly/monthly endpoints. The start_date and end_date
strings of the JSON are local-time renderings of startTs and endTs; the
embedding keeps the two timestamps themselves. -/
structure SeriesAnswer where
  data : List SeriesPoint
  startTs : Int
  endTs : Int
  interval : String
  online : Bool
deriving DecidableEq, Repr

/-- GET /api/telemetry/weekly: trailing 7 days, hourly interval, limit 168. -/
def get_weekly_telemetry (env : Env) (now : Int) (st : St) :
    Except PyError (ApiResp SeriesAnswer) × St :=
  let (token, st1) :=
    if pyTruthy env.jwt then (env.jwt, st) else get_auth_token env st
  if !(pyTruthy token) then
    (.ok (.err 401 "Authentication failed" false), st1)
  else
    let (startTs, endTs) := get_time_range now 7
    let (td, st2) := fetch_telemetry env token (some seriesKeys)
      (some startTs) (some endTs) (some 3600000) (some 168) st1
    match td with
    | none => (.ok (.err 500 "Could not fetch weekly telemetry" false), st2)
    | some d =>
      if d.isEmpty then
        (.ok (.err 500 "Could not fetch weekly telemetry" false), st2)
      else
        match build_series_points d with
        | .error pe => (.error pe, st2)
        | .ok pts =>
          (.ok (.ok { data := pts, startTs := startTs, endTs := endTs,
                      interval := "hourly", online := true }), st2)

/-- GET /api/telemetry/monthly: trailing 30 days, daily interval, limit 30. -/
def get_monthly_telemetry (env : Env) (now : Int) (st : St) :
    Except PyError (ApiResp SeriesAnswer) × St :=
  let (token, st1) :=
    if pyTruthy env.jwt then (env.jwt, st) else get_auth_token env st
  if !(pyTruthy token) then
    (.ok (.err 401 "Authentication failed" false), st1)
  else
    let (startTs, endTs) := get_time_range now 30
    let (td, st2) := fetch_telemetry env token (some seriesKeys)
      (some startTs) (some endTs) (some 86400000) (some 30) st1
    match td with
    | none => (.ok (.err 500 "Could not fetch monthly telemetry" false), st2)
    | some d =>
      if d.isEmpty then
        (.ok (.err 500 "Could not fetch monthly telemetry" false), st2)
      else
        match build_series_points d with
        | .error pe => (.error pe, st2)
        | .ok pts =>
          (.ok (.ok { data := pts, startTs := startTs, endTs := endTs,
                      interval := "daily", online := true }), st2)

/-- The /health body: static status string, the live probe result, and the
current local timestamp (the embedding keeps the instant the formatted
string renders). -/
structure HealthBody where
  status : String
  thingsboard_accessible : Bool
  timestamp : Int
deriving DecidableEq, Repr

/-- GET /health: always HTTP 200 with the liveness object. -/
def health_check (env : Env) (now : Int) : Nat × HealthBody :=
  (200, { status := "running",
          thingsboard_accessible := check_internet_connection env,
          timestamp := now })

/-! ### Basic lemmas about the dictionary and the key scan -/

theorem dictLookup_mem {d : RawResponse} {k : String} {l : List Entry}
    (h : dictLookup d k = some l) : (k, l) ∈ d := by
  induction d with
  | nil => simp [dictLookup] at h
  | cons p rest ih =>
    obtain ⟨k0, l0⟩ := p
    by_cases hk : k0 = k
    · subst hk
      simp [dictLookup] at h
      simp [h]
    · simp [dictLookup, hk] at h
      exact List.mem_cons_of_mem _ (ih h)

theorem containsKey_exists {d : RawResponse} {k : String}
    (h : containsKey d k = true) : ∃ l, dictLookup d k = some l := by
  unfold containsKey at h
  exact Option.isSome_iff_exists.mp h

theorem find_matching_key_mem {d : RawResponse} {ks : List String} {k : String}
    (h : find_matching_key d ks = some k) : k ∈ ks := by
  induction ks with
  | nil => simp [find_matching_key] at h
  | cons k0 rest ih =>
    by_cases hc : containsKey d k0 = true
    · simp [find_matching_key, hc] at h
      simp [h]
    · simp [find_matching_key, hc] at h
      exact List.mem_cons_of_mem _ (ih h)

theorem find_matching_key_contains {d : RawResponse} {ks : List String} {k : String}
    (h : find_matching_key d ks = some k) : containsKey d k = true := by
  induction ks with
  | nil => simp [find_matching_key] at h
  | cons k0 rest ih =>
    by_cases hc : containsKey d k0 = true
    · simp [find_matching_key, hc] at h
      subst h; exact hc
    · simp [find_matching_key, hc] at h
      exact ih h

/-- The full behavior of get_value_and_timestamp for a key whose variant list
has no empty string (true of every canonical key): unmatched keys give the
default pair, a matched empty list raises IndexError, and a matched nonempty
list gives the coerced first value together with its ts field. -/
theorem gvt_spec (d : RawResponse) (key : String)
    (hne : ∀ v ∈ tkmGet key [key], v ≠ "") :
    (find_matching_key d (tkmGet key [key]) = none →
      get_value_and_timestamp d key = .ok (0, none)) ∧
    (∀ k, find_matching_key d (tkmGet key [key]) = some k →
      (dictLookup d k = some [] →
        get_value_and_timestamp d key = .error .indexError) ∧
      (∀ e rest, dictLookup d k = some (e :: rest) →
        get_value_and_timestamp d key = .ok (pyCoerce e.value, e.ts))) := by
  constructor
  · intro h
    simp [get_value_and_timestamp, h]
  · intro k hfind
    have hkne : k ≠ "" := hne k (find_matching_key_mem hfind)
    constructor
    · intro hl
      simp [get_value_and_timestamp, hfind, hkne, hl]
    · intro e rest hl
      simp [get_value_and_timestamp, hfind, hkne, hl]

/-- C1 (counterexample): the claim says a matched key with an empty list gives
(0.0, none) and the function never raises, but on response
Power maps-to [] the code indexes the present empty list and raises
IndexError; and on a first entry whose value does not coerce, the ts field is
still returned, where the claim says none. -/
theorem C1_counterexample :
    get_value_and_timestamp [("Power", [])] "power" = .error .indexError ∧
    get_value_and_timestamp
      [("Power", [{ value := some .badVal, ts := some 123 }])] "power" =
      .ok (0, some 123) := by
  constructor <;> rfl

/-- C1 (amended): for every raw response and canonical key, if no variant of
the key is present the result is (0.0, none); if the matched variant's list
is nonempty the result is the coerced float of the first entry's value (0.0
when the value field is absent or coercion fails) together with the entry's
ts field (none if absent), even when coercion fails; if the matched variant's
list is empty the call raises IndexError instead of returning. -/
theorem C1_extract_amended (d : RawResponse) (key : String)
    (hk : key ∈ canonicalKeys) :
    (find_matching_key d (tkmGet key [key]) = none →
      get_value_and_timestamp d key = .ok (0, none)) ∧
    (∀ k, find_matching_key d (tkmGet key [key]) = some k →
      (dictLookup d k = some [] →
        get_value_and_timestamp d key = .error .indexError) ∧
      (∀ e rest, dictLookup d k = some (e :: rest) →
        get_value_and_timestamp d key = .ok (pyCoerce e.value, e.ts))) := by
  have hne : ∀ v ∈ tkmGet key [key], v ≠ "" := by
    have hk2 : key = "voltage" ∨ key = "current" ∨ key = "power" ∨
        key = "energy" ∨ key = "frequency" ∨ key = "powerfact" ∨
        key = "rmp" := by
      simpa [canonicalKeys, TELEMETRY_KEY_MAPPING] using hk
    rcases hk2 with rfl | rfl | rfl | rfl | rfl | rfl | rfl <;> decide
  exact gvt_spec d key hne

theorem C1_extract_amended_witness :
    get_value_and_timestamp
      [("PF", [{ value := some (.numStr 1), ts := some 2 }])] "powerfact" =
      .ok (1, some 2) := by
  have h := C1_extract_amended
    [("PF", [{ value := some (.numStr 1), ts := some 2 }])] "powerfact"
    (by decide)
  simpa [pyCoerce, pyFloat?] using
    (h.2 "PF" (by decide)).2 { value := some (.numStr 1), ts := some 2 } []
      (by decide)

/-- C5: find_matching_key returns the first variant, in declared order, that
is present as a key of the response (every earlier variant is absent), none
exactly when no variant is present; in particular for a response containing
only the key PF, the powerfact variant list resolves to PF. -/
theorem C5_resolve_first_variant :
    (∀ (d : RawResponse) (ks : List String) (k : String),
      find_matching_key d ks = some k →
        ∃ i, ks.get? i = some k ∧ containsKey d k = true ∧
          ∀ j, j < i → ∀ k2, ks.get? j = some k2 →
            containsKey d k2 = false) ∧
    (∀ (d : RawResponse) (ks : List String),
      find_matching_key d ks = none ↔ ∀ k ∈ ks, containsKey d k = false) ∧
    find_matching_key [("PF", [])] (tkmGet "powerfact" ["powerfact"]) =
      some "PF" := by
  refine ⟨?_, ?_, by decide⟩
  · intro d ks
    induction ks with
    | nil => intro k h; simp [find_matching_key] at h
    | cons k0 rest ih =>
      intro k h
      by_cases hc : containsKey d k0 = true
      · simp [find_matching_key, hc] at h
        subst h
        exact ⟨0, rfl, hc, by intro j hj; omega⟩
      · have hc2 : containsKey d k0 = false := by simpa using hc
        simp [find_matching_key, hc2] at h
        obtain ⟨i, h1, h2, h3⟩ := ih k h
        refine ⟨i + 1, by simpa using h1, h2, ?_⟩
        intro j hj k2 hk2
        cases j with
        | zero =>
          simp at hk2
          subst hk2
          exact hc2
        | succ j2 => exact h3 j2 (by omega) k2 (by simpa using hk2)
  · intro d ks
    induction ks with
    | nil => simp [find_matching_key]
    | cons k0 rest ih =>
      by_cases hc : containsKey d k0 = true
      · simp [find_matching_key, hc]
      · have hc2 : containsKey d k0 = false := by simpa using hc
        simp [find_matching_key, hc2, ih]

theorem C5_resolve_first_variant_witness :
    ∃ i, (["Voltage", "voltage", "VOLTAGE"] : List String).get? i =
        some "voltage" ∧
      containsKey [("voltage", [])] "voltage" = true ∧
      ∀ j, j < i → ∀ k2,
        (["Voltage", "voltage", "VOLTAGE"] : List String).get? j = some k2 →
          containsKey [("voltage", [])] k2 = false :=
  C5_resolve_first_variant.1 [("voltage", [])]
    ["Voltage", "voltage", "VOLTAGE"] "voltage" (by decide)

/-- C9: for every outcome of the connectivity probe, the health endpoint
responds 200 with the static status running, the probe's boolean result, and
the current local timestamp; it never returns an error response. -/
theorem C9_health_always_ok (env : Env) (now : Int) :
    (health_check env now).1 = 200 ∧
    (health_check env now).2.status = "running" ∧
    (health_check env now).2.thingsboard_accessible =
      check_internet_connection env ∧
    (health_check env now).2.timestamp = now :=
  ⟨rfl, rfl, rfl, rfl⟩

/-! ### Series alignment -/

theorem exc_ok_bind {α β : Type} (a : α) (f : α → Except PyError β) :
    (Except.ok a >>= f : Except PyError β) = f a := rfl

theorem companionAt_ok (d : RawResponse)
    (hwf : ∀ kl ∈ d, ∀ e ∈ kl.2, e.value.isSome = true ∧ e.ts.isSome = true)
    (k : String) (i : Nat) :
    companionAt d k i = .ok (companionVal d k i) := by
  cases hl : dictLookup d k with
  | none => simp [companionAt, companionVal, hl]
  | some l =>
    cases he : l.get? i with
    | none =>
      rw [List.get?_eq_getElem?] at he
      simp [companionAt, companionVal, hl, he]
    | some e =>
      have hm := dictLookup_mem hl
      have hv := (hwf (k, l) hm e (List.get?_mem he)).1
      obtain ⟨v, hv2⟩ := Option.isSome_iff_exists.mp hv
      rw [List.get?_eq_getElem?] at he
      simp [companionAt, companionVal, hl, he, entryValue, hv2]

theorem build_loop_ok (d : RawResponse) (pk vk ck fk rk ek : String)
    (g : Nat → SeriesPoint) (l : List Nat)
    (h : ∀ i ∈ l, build_point d pk vk ck fk rk ek i = .ok (g i)) :
    build_loop d pk vk ck fk rk ek l = .ok (l.map g) := by
  induction l with
  | nil => rfl
  | cons i rest ih =>
    have hi := h i (by simp)
    have hr := ih (fun j hj => h j (by simp [hj]))
    simp [build_loop, hi, hr, exc_ok_bind]

theorem build_point_ok (d : RawResponse)
    (hwf : ∀ kl ∈ d, ∀ e ∈ kl.2, e.value.isSome = true ∧ e.ts.isSome = true)
    (plist : List Entry)
    (hl : dictLookup d (actualKey d "power") = some plist)
    (i : Nat) (hi : i < plist.length) :
    build_point d (actualKey d "power") (actualKey d "voltage")
      (actualKey d "current") (actualKey d "frequency") (actualKey d "rmp")
      (actualKey d "energy") i = .ok (pointAt d plist i) := by
  have hmem : (actualKey d "power", plist) ∈ d := dictLookup_mem hl
  have he : plist[i]? = some plist[i] := List.getElem?_eq_getElem hi
  have hef := hwf _ hmem plist[i] (List.getElem_mem hi)
  obtain ⟨v, hv⟩ := Option.isSome_iff_exists.mp hef.1
  obtain ⟨t, ht⟩ := Option.isSome_iff_exists.mp hef.2
  simp [build_point, dictGetItem, hl, exc_ok_bind, listGetItem, he, entryTs,
        ht, entryValue, hv, companionAt_ok d hwf, pointAt]

/-- C2: for every well-formed fetch result (each record carries its value and
ts fields), the weekly/monthly point-building section yields exactly one
output record per point of the matched power series; record i takes its
timestamp and raw power value from the power series at index i, and each
companion metric contributes its value at index i when its series has more
than i points and 0 otherwise. Both handlers run this identical section on
their fetch result. -/
theorem C2_series_alignment (d : RawResponse)
    (hwf : ∀ kl ∈ d, ∀ e ∈ kl.2, e.value.isSome = true ∧ e.ts.isSome = true) :
    ∃ pts, build_series_points d = .ok pts ∧
      pts.length = ((dictLookup d (actualKey d "power")).getD []).length ∧
      ∀ i e, ((dictLookup d (actualKey d "power")).getD []).get? i = some e →
        ∃ t v, e.ts = some t ∧ e.value = some v ∧
          pts.get? i = some
            { timestamp := t, power := v,
              voltage := companionVal d (actualKey d "voltage") i,
              current := companionVal d (actualKey d "current") i,
              frequency := companionVal d (actualKey d "frequency") i,
              rmp := companionVal d (actualKey d "rmp") i,
              energy := companionVal d (actualKey d "energy") i } := by
  have hunfold : build_series_points d =
      build_loop d (actualKey d "power") (actualKey d "voltage")
        (actualKey d "current") (actualKey d "frequency") (actualKey d "rmp")
        (actualKey d "energy")
        (List.range ((dictLookup d (actualKey d "power")).getD []).length) :=
    rfl
  cases hl : dictLookup d (actualKey d "power") with
  | none =>
    refine ⟨[], ?_, by simp [hl], ?_⟩
    · rw [hunfold, hl]
      rfl
    · intro i e he
      simp [hl] at he
  | some plist =>
    have hpts : build_series_points d =
        .ok ((List.range plist.length).map (pointAt d plist)) := by
      rw [hunfold, hl]
      exact build_loop_ok d _ _ _ _ _ _ (pointAt d plist)
        (List.range plist.length)
        (fun i hi => build_point_ok d hwf plist hl i (by simpa using hi))
    refine ⟨_, hpts, by simp [hl], ?_⟩
    intro i e he
    simp only [Option.getD_some] at he
    have hi : i < plist.length := by
      by_contra hcon
      push_neg at hcon
      rw [List.get?_eq_none.mpr hcon] at he
      exact absurd he (by simp)
    have hef := hwf _ (dictLookup_mem hl) e (List.get?_mem he)
    obtain ⟨v, hv⟩ := Option.isSome_iff_exists.mp hef.1
    obtain ⟨t, ht⟩ := Option.isSome_iff_exists.mp hef.2
    refine ⟨t, v, ht, hv, ?_⟩
    rw [List.get?_eq_getElem?] at he
    rw [List.get?_eq_getElem?, List.getElem?_map, List.getElem?_range hi]
    simp [pointAt, he, ht, hv]

theorem C2_series_alignment_witness :
    (∀ kl ∈ dC2, ∀ e ∈ kl.2, e.value.isSome = true ∧ e.ts.isSome = true) ∧
    (∃ pts, build_series_points dC2 = .ok pts ∧
      pts.length = ((dictLookup dC2 (actualKey dC2 "power")).getD []).length ∧
      ∀ i e,
        ((dictLookup dC2 (actualKey dC2 "power")).getD []).get? i = some e →
        ∃ t v, e.ts = some t ∧ e.value = some v ∧
          pts.get? i = some
            { timestamp := t, power := v,
              voltage := companionVal dC2 (actualKey dC2 "voltage") i,
              current := companionVal dC2 (actualKey dC2 "current") i,
              frequency := companionVal dC2 (actualKey dC2 "frequency") i,
              rmp := companionVal dC2 (actualKey dC2 "rmp") i,
              energy := companionVal dC2 (actualKey dC2 "energy") i }) :=
  ⟨by decide, C2_series_alignment dC2 (by decide)⟩

/-! ### The authenticator's retry discipline -/

theorem authLoop_preserve (env : Env) (l : List Nat) (st : St) :
    (authLoop env l st).2.getIdx = st.getIdx ∧
    (authLoop env l st).2.requests = st.requests ∧
    (authLoop env l st).2.authCalls = st.authCalls := by
  induction l generalizing st with
  | nil => exact ⟨rfl, rfl, rfl⟩
  | cons a rest ih =>
    cases hp : env.posts st.postIdx with
    | netErr =>
      by_cases ha : a < 2 <;> simp [authLoop, hp, ha, ih]
    | resp s tok =>
      by_cases h1 : s = 401
      · simp [authLoop, hp, h1]
      · by_cases h2 : errStatus s = true
        · by_cases ha : a < 2 <;> simp [authLoop, hp, h1, h2, ha, ih]
        · simp [authLoop, hp, h1, h2]

theorem authLoop_postIdx_le (env : Env) (l : List Nat) (st : St) :
    (authLoop env l st).2.postIdx ≤ st.postIdx + l.length := by
  induction l generalizing st with
  | nil => simp [authLoop]
  | cons a rest ih =>
    cases hp : env.posts st.postIdx with
    | netErr =>
      simp only [authLoop, hp]
      refine le_trans (ih _) ?_
      by_cases ha : a < 2 <;> simp [ha, List.length_cons] <;> omega
    | resp s tok =>
      by_cases h1 : s = 401
      · simp [authLoop, hp, h1]
      · by_cases h2 : errStatus s = true
        · simp only [authLoop, hp, h1, h2, if_neg, if_pos, ite_true,
            ite_false, Bool.false_eq_true]
          refine le_trans (ih _) ?_
          by_cases ha : a < 2 <;> simp [ha, List.length_cons] <;> omega
        · simp [authLoop, hp, h1, h2]

theorem authLoop_fst_eq (env : Env) (l : List Nat) (st st2 : St)
    (h : st.postIdx = st2.postIdx) :
    (authLoop env l st).1 = (authLoop env l st2).1 := by
  induction l generalizing st st2 with
  | nil => rfl
  | cons a rest ih =>
    have hp2 : env.posts st2.postIdx = env.posts st.postIdx := by rw [h]
    cases hp : env.posts st.postIdx with
    | netErr =>
      rw [hp] at hp2
      by_cases ha : a < 2 <;>
        simp only [authLoop, hp, hp2, ha, if_pos, if_neg, ite_true,
          ite_false] <;>
        exact ih _ _ (by simp [ha, h])
    | resp s tok =>
      rw [hp] at hp2
      by_cases h1 : s = 401
      · simp [authLoop, hp, hp2, h1]
      · by_cases h2 : errStatus s = true
        · by_cases ha : a < 2 <;>
            simp only [authLoop, hp, hp2, h1, h2, ha, if_pos, if_neg,
              ite_true, ite_false, Bool.false_eq_true] <;>
            exact ih _ _ (by simp [ha, h])
        · simp [authLoop, hp, hp2, h1, h2]

theorem authLoop_step_fail (env : Env) (a : Nat) (rest : List Nat) (st : St)
    (h : postFails (env.posts st.postIdx) = true) :
    authLoop env (a :: rest) st =
      authLoop env rest
        { st with postIdx := st.postIdx + 1,
                  sleeps := st.sleeps ++ (if a < 2 then [2 ^ a] else []) } := by
  cases hp : env.posts st.postIdx with
  | netErr =>
    by_cases ha : a < 2 <;> simp [authLoop, hp, ha]
  | resp s tok =>
    rw [hp] at h
    simp only [postFails, Bool.and_eq_true, decide_eq_true_eq] at h
    by_cases ha : a < 2 <;> simp [authLoop, hp, h.1, h.2, ha]

theorem authLoop_step_401 (env : Env) (a : Nat) (rest : List Nat) (st : St)
    (tok : Option String) (h : env.posts st.postIdx = .resp 401 tok) :
    authLoop env (a :: rest) st =
      (none, { st with postIdx := st.postIdx + 1 }) := by
  simp [authLoop, h]

theorem authLoop_step_ok (env : Env) (a : Nat) (rest : List Nat) (st : St)
    (s : Nat) (tok : Option String) (h : env.posts st.postIdx = .resp s tok)
    (h1 : s ≠ 401) (h2 : errStatus s = false) :
    authLoop env (a :: rest) st =
      (tok, { st with postIdx := st.postIdx + 1 }) := by
  simp [authLoop, h, h1, h2]

/-- C4: with connectivity available, a 401 login response at any attempt
terminates at once with none and no further POST or sleep; any other request
failure at attempt j sleeps 2 to the power j (attempts 0 and 1 only) and
retries; a non-error response returns the token field of its body; after
three failures the result is none with sleeps 1s then 2s; and never more
than 3 attempts are made. -/
theorem C4_auth_retry (env : Env) (st : St) (hint : env.internet = true) :
    (∀ k, k < 3 →
      (∀ j, j < k → postFails (env.posts (st.postIdx + j)) = true) →
      (∀ tok, env.posts (st.postIdx + k) = .resp 401 tok →
        get_auth_token env st =
          (none, { st with postIdx := st.postIdx + k + 1,
                           authCalls := st.authCalls + 1,
                           sleeps := st.sleeps ++ backoffs k })) ∧
      (∀ s tok, env.posts (st.postIdx + k) = .resp s tok → s ≠ 401 →
          errStatus s = false →
        get_auth_token env st =
          (tok, { st with postIdx := st.postIdx + k + 1,
                          authCalls := st.authCalls + 1,
                          sleeps := st.sleeps ++ backoffs k }))) ∧
    ((∀ j, j < 3 → postFails (env.posts (st.postIdx + j)) = true) →
      get_auth_token env st =
        (none, { st with postIdx := st.postIdx + 3,
                         authCalls := st.authCalls + 1,
                         sleeps := st.sleeps ++ [1, 2] })) ∧
    (get_auth_token env st).2.postIdx ≤ st.postIdx + 3 := by
  have hga : get_auth_token env st =
      authLoop env [0, 1, 2] { st with authCalls := st.authCalls + 1 } := by
    simp [get_auth_token, hint]
  have hb0 : backoffs 0 = ([] : List Nat) := by decide
  have hb1 : backoffs 1 = [1] := by decide
  have hb2 : backoffs 2 = [1, 2] := by decide
  refine ⟨?_, ?_, ?_⟩
  · intro k hk hfails
    interval_cases k
    · constructor
      · intro tok h
        rw [hga, authLoop_step_401 env 0 [1, 2] _ tok (by simpa using h)]
        simp [hb0]
      · intro s tok h h1 h2
        rw [hga, authLoop_step_ok env 0 [1, 2] _ s tok (by simpa using h) h1 h2]
        simp [hb0]
    · have h0 : postFails (env.posts st.postIdx) = true := by
        simpa using hfails 0 (by omega)
      constructor
      · intro tok h
        rw [hga, authLoop_step_fail env 0 [1, 2] _ (by simpa using h0),
            authLoop_step_401 env 1 [2] _ tok (by simpa using h)]
        simp [hb1]
      · intro s tok h h1 h2
        rw [hga, authLoop_step_fail env 0 [1, 2] _ (by simpa using h0),
            authLoop_step_ok env 1 [2] _ s tok (by simpa using h) h1 h2]
        simp [hb1]
    · have h0 : postFails (env.posts st.postIdx) = true := by
        simpa using hfails 0 (by omega)
      have h1f : postFails (env.posts (st.postIdx + 1)) = true :=
        hfails 1 (by omega)
      constructor
      · intro tok h
        rw [hga, authLoop_step_fail env 0 [1, 2] _ (by simpa using h0),
            authLoop_step_fail env 1 [2] _ (by simpa using h1f),
            authLoop_step_401 env 2 [] _ tok (by simpa using h)]
        simp [hb2]
      · intro s tok h h1 h2
        rw [hga, authLoop_step_fail env 0 [1, 2] _ (by simpa using h0),
            authLoop_step_fail env 1 [2] _ (by simpa using h1f),
            authLoop_step_ok env 2 [] _ s tok (by simpa using h) h1 h2]
        simp [hb2]
  · intro hfails
    have h0 : postFails (env.posts st.postIdx) = true := by
      simpa using hfails 0 (by omega)
    have h1f : postFails (env.posts (st.postIdx + 1)) = true :=
      hfails 1 (by omega)
    have h2f : postFails (env.posts (st.postIdx + 2)) = true :=
      hfails 2 (by omega)
    rw [hga, authLoop_step_fail env 0 [1, 2] _ (by simpa using h0),
        authLoop_step_fail env 1 [2] _ (by simpa using h1f),
        authLoop_step_fail env 2 [] _ (by simpa using h2f)]
    simp [authLoop]
  · rw [hga]
    refine le_trans (authLoop_postIdx_le env [0, 1, 2] _) (by simp)

theorem C4_auth_retry_witness :
    envC4.internet = true ∧
    get_auth_token envC4 initSt =
      (none, { postIdx := 3, getIdx := 0, authCalls := 1,
               sleeps := [1, 2], requests := [] }) :=
  ⟨rfl, by
    have h := (C4_auth_retry envC4 initSt rfl).2.1 (fun j hj => rfl)
    simpa [initSt] using h⟩

/-! ### The fetcher -/

theorem get_auth_token_preserve (env : Env) (st : St) :
    (get_auth_token env st).2.getIdx = st.getIdx ∧
    (get_auth_token env st).2.requests = st.requests ∧
    (get_auth_token env st).2.authCalls = st.authCalls + 1 := by
  unfold get_auth_token
  by_cases hint : env.internet
  · obtain ⟨h1, h2, h3⟩ :=
      authLoop_preserve env [0, 1, 2] { st with authCalls := st.authCalls + 1 }
    simp [hint, h1, h2, h3]
  · simp [hint]

theorem get_auth_token_fst (env : Env) (st : St) :
    (get_auth_token env st).1 = authFst env st.postIdx := by
  unfold authFst get_auth_token
  by_cases hint : env.internet
  · simp only [hint, if_true, ite_true]
    exact authLoop_fst_eq env [0, 1, 2] _ _ rfl
  · simp [hint]

/-- C7: a fetch whose token argument is falsy or whose connectivity probe
fails returns none with the state untouched: no telemetry GET is issued, no
request parameters are recorded. -/
theorem C7_fetch_guard (env : Env) (token : Option String)
    (keys : Option (List String)) (sts ets itv lim : Option Int) (st : St)
    (h : pyTruthy token = false ∨ env.internet = false) :
    fetch_telemetry env token keys sts ets itv lim st = (none, st) := by
  rcases h with h | h <;>
    simp [fetch_telemetry, check_internet_connection, h]

theorem C7_fetch_guard_witness :
    (pyTruthy none = false ∨ envC7.internet = false) ∧
    fetch_telemetry envC7 none none none none none none initSt =
      (none, initSt) :=
  ⟨Or.inl rfl,
    C7_fetch_guard envC7 none none none none none none initSt (Or.inl rfl)⟩

/-- C3 (counterexample): first GET 401, re-authentication succeeds with a
fresh token, but the retried GET answers 500 with a nonempty parsed body:
fetch_telemetry returns none, not the retried call's parsed body, refuting
the unconditional claim. -/
theorem C3_counterexample :
    envC3.gets 0 = .resp 401 [] ∧
    authFst envC3 0 = some "fresh" ∧
    envC3.gets 1 = .resp 500 bodyC3 ∧
    (fetch_telemetry envC3 (some "tok") none none none none none initSt).1 =
      none ∧
    bodyC3 ≠ [] := by
  refine ⟨rfl, rfl, rfl, rfl, by decide⟩

/-- C3 (amended): on a first GET answering 401 (with a truthy token and
connectivity), exactly one re-authentication happens and at most one retried
GET, never more, under any response sequence; when the re-authentication
yields a falsy token the result is none with no retried GET; when it yields
a truthy token, exactly one retried GET is issued and the result is the
retried call's parsed body when its status is not an error, and none when
the retried call has an error status or fails at network level. -/
theorem C3_fetch_retry_amended (env : Env) (tok : String)
    (keys : Option (List String)) (sts ets itv lim : Option Int) (st : St)
    (htok : tok ≠ "") (hint : env.internet = true)
    (b : RawResponse) (h401 : env.gets st.getIdx = .resp 401 b) :
    (fetch_telemetry env (some tok) keys sts ets itv lim st).2.authCalls =
      st.authCalls + 1 ∧
    st.getIdx + 1 ≤
      (fetch_telemetry env (some tok) keys sts ets itv lim st).2.getIdx ∧
    (fetch_telemetry env (some tok) keys sts ets itv lim st).2.getIdx ≤
      st.getIdx + 2 ∧
    (pyTruthy (authFst env st.postIdx) = false →
      (fetch_telemetry env (some tok) keys sts ets itv lim st).1 = none ∧
      (fetch_telemetry env (some tok) keys sts ets itv lim st).2.getIdx =
        st.getIdx + 1) ∧
    (pyTruthy (authFst env st.postIdx) = true →
      (fetch_telemetry env (some tok) keys sts ets itv lim st).2.getIdx =
        st.getIdx + 2 ∧
      (∀ s2 b2, env.gets (st.getIdx + 1) = .resp s2 b2 →
        (errStatus s2 = false →
          (fetch_telemetry env (some tok) keys sts ets itv lim st).1 =
            some b2) ∧
        (errStatus s2 = true →
          (fetch_telemetry env (some tok) keys sts ets itv lim st).1 =
            none)) ∧
      (env.gets (st.getIdx + 1) = .netErr →
        (fetch_telemetry env (some tok) keys sts ets itv lim st).1 =
          none)) := by
  have htr : pyTruthy (some tok) = true := by simp [pyTruthy, htok]
  rcases hga : get_auth_token env
      { st with getIdx := st.getIdx + 1,
                requests := st.requests ++ [buildRequest keys sts ets itv lim] }
    with ⟨newTok, st2⟩
  have hfst : newTok = authFst env st.postIdx := by
    have h2 := get_auth_token_fst env
      { st with getIdx := st.getIdx + 1,
                requests := st.requests ++ [buildRequest keys sts ets itv lim] }
    rw [hga] at h2
    exact h2
  have hpre := get_auth_token_preserve env
    { st with getIdx := st.getIdx + 1,
              requests := st.requests ++ [buildRequest keys sts ets itv lim] }
  rw [hga] at hpre
  have hgi : st2.getIdx = st.getIdx + 1 := hpre.1
  have hac : st2.authCalls = st.authCalls + 1 := hpre.2.2
  have hfe : fetch_telemetry env (some tok) keys sts ets itv lim st =
      (if pyTruthy newTok then
        (match env.gets (st.getIdx + 1) with
         | .netErr => (none,
             { st2 with getIdx := st2.getIdx + 1,
                        requests := st2.requests ++
                          [buildRequest keys sts ets itv lim] })
         | .resp s2 body2 =>
           if errStatus s2 then (none,
             { st2 with getIdx := st2.getIdx + 1,
                        requests := st2.requests ++
                          [buildRequest keys sts ets itv lim] })
           else (some body2,
             { st2 with getIdx := st2.getIdx + 1,
                        requests := st2.requests ++
                          [buildRequest keys sts ets itv lim] }))
       else (none, st2)) := by
    simp only [fetch_telemetry, check_internet_connection, htr, hint,
      Bool.not_true, Bool.or_self, Bool.false_eq_true, if_false, ite_false,
      h401, hga, hgi]
    simp
  rw [hfst] at hfe
  by_cases hT : pyTruthy (authFst env st.postIdx) = true
  · cases hg2o : env.gets (st.getIdx + 1) with
    | netErr =>
      have hfe2 : fetch_telemetry env (some tok) keys sts ets itv lim st =
          (none, { st2 with getIdx := st2.getIdx + 1,
                            requests := st2.requests ++
                              [buildRequest keys sts ets itv lim] }) := by
        rw [hfe]
        simp [hT, hg2o]
      refine ⟨by simp [hfe2, hac], by simp [hfe2, hgi], by simp [hfe2, hgi],
        ?_, ?_⟩
      · intro hc
        rw [hT] at hc
        cases hc
      · intro _
        refine ⟨by simp [hfe2, hgi], ?_, fun _ => by simp [hfe2]⟩
        intro s2 b2 hb
        cases hb
    | resp s2 b2 =>
      by_cases he : errStatus s2 = true
      · have hfe2 : fetch_telemetry env (some tok) keys sts ets itv lim st =
            (none, { st2 with getIdx := st2.getIdx + 1,
                              requests := st2.requests ++
                                [buildRequest keys sts ets itv lim] }) := by
          rw [hfe]
          simp [hT, hg2o, he]
        refine ⟨by simp [hfe2, hac], by simp [hfe2, hgi], by simp [hfe2, hgi],
          ?_, ?_⟩
        · intro hc
          rw [hT] at hc
          cases hc
        · intro _
          refine ⟨by simp [hfe2, hgi], ?_, ?_⟩
          · intro s3 b3 hb
            injection hb with hs3 hb3
            subst hs3
            subst hb3
            exact ⟨fun hcon => absurd he (by simp [hcon]),
              fun _ => by simp [hfe2]⟩
          · intro hb
            cases hb
      · have he2 : errStatus s2 = false := by simpa using he
        have hfe2 : fetch_telemetry env (some tok) keys sts ets itv lim st =
            (some b2, { st2 with getIdx := st2.getIdx + 1,
                                 requests := st2.requests ++
                                   [buildRequest keys sts ets itv lim] }) := by
          rw [hfe]
          simp [hT, hg2o, he2]
        refine ⟨by simp [hfe2, hac], by simp [hfe2, hgi], by simp [hfe2, hgi],
          ?_, ?_⟩
        · intro hc
          rw [hT] at hc
          cases hc
        · intro _
          refine ⟨by simp [hfe2, hgi], ?_, ?_⟩
          · intro s3 b3 hb
            injection hb with hs3 hb3
            subst hs3
            subst hb3
            exact ⟨fun _ => by simp [hfe2],
              fun hcon => absurd he2 (by simp [hcon])⟩
          · intro hb
            cases hb
  · have hF : pyTruthy (authFst env st.postIdx) = false := by
      simpa using hT
    have hfe2 : fetch_telemetry env (some tok) keys sts ets itv lim st =
        (none, st2) := by
      rw [hfe]
      simp [hF]
    refine ⟨by simp [hfe2, hac], by simp [hfe2, hgi], by simp [hfe2, hgi],
      ?_, ?_⟩
    · intro _
      exact ⟨by simp [hfe2], by simp [hfe2, hgi]⟩
    · intro hc
      rw [hF] at hc
      cases hc

theorem C3_fetch_retry_amended_witness :
    (fetch_telemetry envC3w (some "tok") none none none none none
      initSt).2.authCalls = initSt.authCalls + 1 ∧
    (fetch_telemetry envC3w (some "tok") none none none none none initSt).1 =
      some bodyC3 := by
  have h := C3_fetch_retry_amended envC3w "tok" none none none none none
    initSt (by decide) rfl [] rfl
  refine ⟨h.1, ?_⟩
  have h2 := (h.2.2.2.2 (by decide)).2.1 200 bodyC3 rfl
  exact h2.1 rfl

/-! ### Handler-level facts -/

theorem fetch_requests_shape (env : Env) (token : Option String)
    (keys : Option (List String)) (sts ets itv lim : Option Int) (st : St) :
    ∃ n, n ≤ 2 ∧
      (pyTruthy token = true → env.internet = true → 1 ≤ n) ∧
      (fetch_telemetry env token keys sts ets itv lim st).2.requests =
        st.requests ++ List.replicate n (buildRequest keys sts ets itv lim) := by
  have hrep1 : ∀ r : FetchRequest, List.replicate 1 r = [r] := fun r => rfl
  have hrep2 : ∀ r : FetchRequest, List.replicate 2 r = [r, r] := fun r => rfl
  by_cases hg : pyTruthy token = true ∧ env.internet = true
  · obtain ⟨ht, hi⟩ := hg
    cases ho : env.gets st.getIdx with
    | netErr =>
      refine ⟨1, by omega, fun _ _ => le_refl 1, ?_⟩
      simp [fetch_telemetry, check_internet_connection, ht, hi, ho, hrep1]
    | resp s body =>
      by_cases h401 : s = 401
      · subst h401
        rcases hga : get_auth_token env
            { st with getIdx := st.getIdx + 1,
                      requests := st.requests ++
                        [buildRequest keys sts ets itv lim] }
          with ⟨newTok, st2⟩
        have hpre := get_auth_token_preserve env
          { st with getIdx := st.getIdx + 1,
                    requests := st.requests ++
                      [buildRequest keys sts ets itv lim] }
        rw [hga] at hpre
        have hreqs : st2.requests =
            st.requests ++ [buildRequest keys sts ets itv lim] := hpre.2.1
        by_cases hT : pyTruthy newTok = true
        · refine ⟨2, by omega, fun _ _ => by omega, ?_⟩
          cases ho2 : env.gets st2.getIdx with
          | netErr =>
            simp [fetch_telemetry, check_internet_connection, ht, hi, ho,
              hga, hT, ho2, hreqs, hrep2]
          | resp s2 b2 =>
            by_cases he : errStatus s2 = true <;>
              simp [fetch_telemetry, check_internet_connection, ht, hi, ho,
                hga, hT, ho2, he, hreqs, hrep2]
        · have hT2 : pyTruthy newTok = false := by simpa using hT
          refine ⟨1, by omega, fun _ _ => le_refl 1, ?_⟩
          simp [fetch_telemetry, check_internet_connection, ht, hi, ho, hga,
            hT2, hreqs, hrep1]
      · by_cases he : errStatus s = true <;>
          · refine ⟨1, by omega, fun _ _ => le_refl 1, ?_⟩
            simp [fetch_telemetry, check_internet_connection, ht, hi, ho,
              h401, he, hrep1]
  · refine ⟨0, by omega, fun ht hi => absurd ⟨ht, hi⟩ hg, ?_⟩
    rcases not_and_or.mp hg with h | h
    · have h2 : pyTruthy token = false := by simpa using h
      simp [fetch_telemetry, h2]
    · have h2 : env.internet = false := by simpa using h
      simp [fetch_telemetry, check_internet_connection, h2]

theorem fetch_st_no401 (env : Env) (token : Option String)
    (keys : Option (List String)) (sts ets itv lim : Option Int) (st : St)
    (h401 : ∀ b, env.gets st.getIdx ≠ .resp 401 b) :
    (fetch_telemetry env token keys sts ets itv lim st).2.authCalls =
      st.authCalls ∧
    (fetch_telemetry env token keys sts ets itv lim st).2.postIdx =
      st.postIdx := by
  by_cases ht : pyTruthy token = true
  · by_cases hi : env.internet = true
    · cases ho : env.gets st.getIdx with
      | netErr =>
        simp [fetch_telemetry, check_internet_connection, ht, hi, ho]
      | resp s body =>
        have hs : s ≠ 401 := by
          intro hcon
          subst hcon
          exact h401 body ho
        by_cases he : errStatus s = true <;>
          simp [fetch_telemetry, check_internet_connection, ht, hi, ho, hs, he]
    · have hi2 : env.internet = false := by simpa using hi
      simp [fetch_telemetry, check_internet_connection, hi2]
  · have ht2 : pyTruthy token = false := by simpa using ht
    simp [fetch_telemetry, ht2]

theorem get_telemetry_snd (env : Env) (now : Int) (st : St)
    (token : Option String) (st1 : St)
    (htok : (if pyTruthy env.jwt then (env.jwt, st)
             else get_auth_token env st) = (token, st1)) :
    (get_telemetry env now st).2 =
      (if pyTruthy token = true
       then (fetch_telemetry env token (some snapshotKeys)
         none none none none st1).2
       else st1) := by
  simp only [get_telemetry, htok]
  by_cases ht : pyTruthy token = true
  · simp only [ht, Bool.not_true, Bool.false_eq_true, if_false, ite_true,
      ite_false]
    rcases hfe : fetch_telemetry env token (some snapshotKeys)
        none none none none st1 with ⟨td, st2⟩
    cases td with
    | none => rfl
    | some d =>
      by_cases hd : d.isEmpty
      · simp [hd]
      · simp only [hd, Bool.false_eq_true, if_false, ite_false]
        cases process_telemetry_data d now with
        | error pe => rfl
        | ok o =>
          cases o with
          | none => rfl
          | some snap => rfl
  · simp [ht]

theorem get_weekly_snd (env : Env) (now : Int) (st : St)
    (token : Option String) (st1 : St)
    (htok : (if pyTruthy env.jwt then (env.jwt, st)
             else get_auth_token env st) = (token, st1)) :
    (get_weekly_telemetry env now st).2 =
      (if pyTruthy token = true
       then (fetch_telemetry env token (some seriesKeys)
         (some (now - 7 * 24 * 60 * 60 * 1000)) (some now) (some 3600000)
         (some 168) st1).2
       else st1) := by
  simp only [get_weekly_telemetry, htok, get_time_range]
  by_cases ht : pyTruthy token = true
  · simp only [ht, Bool.not_true, Bool.false_eq_true, if_false, ite_true,
      ite_false]
    rcases hfe : fetch_telemetry env token (some seriesKeys)
        (some (now - 7 * 24 * 60 * 60 * 1000)) (some now) (some 3600000)
        (some 168) st1 with ⟨td, st2⟩
    cases td with
    | none => rfl
    | some d =>
      by_cases hd : d.isEmpty
      · simp [hd]
      · simp only [hd, Bool.false_eq_true, if_false, ite_false]
        cases build_series_points d with
        | error pe => rfl
        | ok pts => rfl
  · simp [ht]

theorem get_monthly_snd (env : Env) (now : Int) (st : St)
    (token : Option String) (st1 : St)
    (htok : (if pyTruthy env.jwt then (env.jwt, st)
             else get_auth_token env st) = (token, st1)) :
    (get_monthly_telemetry env now st).2 =
      (if pyTruthy token = true
       then (fetch_telemetry env token (some seriesKeys)
         (some (now - 30 * 24 * 60 * 60 * 1000)) (some now) (some 86400000)
         (some 30) st1).2
       else st1) := by
  simp only [get_monthly_telemetry, htok, get_time_range]
  by_cases ht : pyTruthy token = true
  · simp only [ht, Bool.not_true, Bool.false_eq_true, if_false, ite_true,
      ite_false]
    rcases hfe : fetch_telemetry env token (some seriesKeys)
        (some (now - 30 * 24 * 60 * 60 * 1000)) (some now) (some 86400000)
        (some 30) st1 with ⟨td, st2⟩
    cases td with
    | none => rfl
    | some d =>
      by_cases hd : d.isEmpty
      · simp [hd]
      · simp only [hd, Bool.false_eq_true, if_false, ite_false]
        cases build_series_points d with
        | error pe => rfl
        | ok pts => rfl
  · simp [ht]

/-- C6 (counterexample): with a truthy static token configured and the
upstream answering 401 on the first telemetry GET, handling /api/telemetry
invokes get_auth_token once and issues one live login POST, refuting the
claim that authenticate is never invoked on any path in static-token mode. -/
theorem C6_counterexample :
    pyTruthy envC6.jwt = true ∧
    (get_telemetry envC6 1000 initSt).2.authCalls = 1 ∧
    (get_telemetry envC6 1000 initSt).2.postIdx = 1 :=
  ⟨rfl, rfl, rfl⟩

/-- C6 (amended): with a truthy static token, the handler's token acquisition
performs no authenticate call; whenever the first telemetry GET does not
answer 401, the whole request performs no authenticate call and no login
POST. The 401-refresh path inside the fetcher is the only way a live login
can happen in static-token mode. -/
theorem C6_static_token_amended (env : Env) (now : Int)
    (hjwt : pyTruthy env.jwt = true)
    (h401 : ∀ b, env.gets 0 ≠ .resp 401 b) :
    (get_telemetry env now initSt).2.authCalls = 0 ∧
    (get_telemetry env now initSt).2.postIdx = 0 := by
  have htok : (if pyTruthy env.jwt then (env.jwt, initSt)
      else get_auth_token env initSt) = (env.jwt, initSt) := by
    simp [hjwt]
  have hsnd := get_telemetry_snd env now initSt env.jwt initSt htok
  have hf := fetch_st_no401 env env.jwt (some snapshotKeys)
    none none none none initSt (by simpa [initSt] using h401)
  rw [hsnd, hjwt]
  simpa [initSt] using hf

theorem C6_static_token_amended_witness :
    pyTruthy envC6w.jwt = true ∧
    (∀ b, envC6w.gets 0 ≠ .resp 401 b) ∧
    (get_telemetry envC6w 1000 initSt).2.authCalls = 0 ∧
    (get_telemetry envC6w 1000 initSt).2.postIdx = 0 := by
  have h := C6_static_token_amended envC6w 1000 rfl
    (fun b hb => by simp [envC6w] at hb)
  exact ⟨rfl, fun b hb => by simp [envC6w] at hb, h.1, h.2⟩

theorem handler_requests_weekly (env : Env) (now : Int) :
    ∀ r ∈ (get_weekly_telemetry env now initSt).2.requests,
      r = buildRequest (some seriesKeys) (some (now - 7 * 24 * 60 * 60 * 1000))
            (some now) (some 3600000) (some 168) := by
  rcases htok : (if pyTruthy env.jwt then (env.jwt, initSt)
      else get_auth_token env initSt) with ⟨token, st1⟩
  have hst1 : st1.requests = [] := by
    by_cases hjwt : pyTruthy env.jwt = true
    · rw [hjwt] at htok
      simp only [ite_true, if_true] at htok
      rw [← (Prod.mk.injEq _ _ _ _).mp htok |>.2]
      rfl
    · have hjwt2 : pyTruthy env.jwt = false := by simpa using hjwt
      rw [hjwt2] at htok
      simp only [Bool.false_eq_true, ite_false, if_false] at htok
      have hpre := get_auth_token_preserve env initSt
      rw [htok] at hpre
      simpa [initSt] using hpre.2.1
  rw [get_weekly_snd env now initSt token st1 htok]
  by_cases ht : pyTruthy token = true
  · simp only [ht, ite_true, if_true]
    obtain ⟨n, hn2, hmin, hreq⟩ := fetch_requests_shape env token
      (some seriesKeys) (some (now - 7 * 24 * 60 * 60 * 1000)) (some now)
      (some 3600000) (some 168) st1
    rw [hreq, hst1]
    intro r hr
    exact List.eq_of_mem_replicate (by simpa using hr)
  · simp [ht, hst1]

theorem handler_requests_monthly (env : Env) (now : Int) :
    ∀ r ∈ (get_monthly_telemetry env now initSt).2.requests,
      r = buildRequest (some seriesKeys)
            (some (now - 30 * 24 * 60 * 60 * 1000)) (some now) (some 86400000)
            (some 30) := by
  rcases htok : (if pyTruthy env.jwt then (env.jwt, initSt)
      else get_auth_token env initSt) with ⟨token, st1⟩
  have hst1 : st1.requests = [] := by
    by_cases hjwt : pyTruthy env.jwt = true
    · rw [hjwt] at htok
      simp only [ite_true, if_true] at htok
      rw [← (Prod.mk.injEq _ _ _ _).mp htok |>.2]
      rfl
    · have hjwt2 : pyTruthy env.jwt = false := by simpa using hjwt
      rw [hjwt2] at htok
      simp only [Bool.false_eq_true, ite_false, if_false] at htok
      have hpre := get_auth_token_preserve env initSt
      rw [htok] at hpre
      simpa [initSt] using hpre.2.1
  rw [get_monthly_snd env now initSt token st1 htok]
  by_cases ht : pyTruthy token = true
  · simp only [ht, ite_true, if_true]
    obtain ⟨n, hn2, hmin, hreq⟩ := fetch_requests_shape env token
      (some seriesKeys) (some (now - 30 * 24 * 60 * 60 * 1000)) (some now)
      (some 86400000) (some 30) st1
    rw [hreq, hst1]
    intro r hr
    exact List.eq_of_mem_replicate (by simpa using hr)
  · simp [ht, hst1]

theorem handler_requests_weekly_ne (env : Env) (now : Int)
    (hjwt : pyTruthy env.jwt = true) (hint : env.internet = true) :
    (get_weekly_telemetry env now initSt).2.requests ≠ [] := by
  have htok : (if pyTruthy env.jwt then (env.jwt, initSt)
      else get_auth_token env initSt) = (env.jwt, initSt) := by
    simp [hjwt]
  rw [get_weekly_snd env now initSt env.jwt initSt htok, hjwt]
  obtain ⟨n, hn2, hmin, hreq⟩ := fetch_requests_shape env env.jwt
    (some seriesKeys) (some (now - 7 * 24 * 60 * 60 * 1000)) (some now)
    (some 3600000) (some 168) initSt
  simp only [ite_true, if_true]
  rw [hreq]
  have hn1 := hmin hjwt hint
  intro hcon
  have hlen := congrArg List.length hcon
  simp [initSt] at hlen
  omega

theorem handler_requests_monthly_ne (env : Env) (now : Int)
    (hjwt : pyTruthy env.jwt = true) (hint : env.internet = true) :
    (get_monthly_telemetry env now initSt).2.requests ≠ [] := by
  have htok : (if pyTruthy env.jwt then (env.jwt, initSt)
      else get_auth_token env initSt) = (env.jwt, initSt) := by
    simp [hjwt]
  rw [get_monthly_snd env now initSt env.jwt initSt htok, hjwt]
  obtain ⟨n, hn2, hmin, hreq⟩ := fetch_requests_shape env env.jwt
    (some seriesKeys) (some (now - 30 * 24 * 60 * 60 * 1000)) (some now)
    (some 86400000) (some 30) initSt
  simp only [ite_true, if_true]
  rw [hreq]
  have hn1 := hmin hjwt hint
  intro hcon
  have hlen := congrArg List.length hcon
  simp [initSt] at hlen
  omega

theorem buildRequest_weekly (now : Int) (hnow : 2592000000 < now) :
    buildRequest (some seriesKeys) (some (now - 7 * 24 * 60 * 60 * 1000))
      (some now) (some 3600000) (some 168) =
    { keys := some ["Power", "power", "POWER", "Voltage", "voltage",
        "VOLTAGE", "Current", "current", "CURRENT", "Frequency", "frequency",
        "FREQUENCY", "RMP", "rmp", "Rmp", "Energy", "energy", "ENERGY"],
      startTs := some (now - 604800000), endTs := some now,
      interval := some 3600000, limit := some 168 } := by
  have hk : expand_tb_keys ["power", "voltage", "current", "frequency",
      "rmp", "energy"] =
      ["Power", "power", "POWER", "Voltage", "voltage", "VOLTAGE", "Current",
       "current", "CURRENT", "Frequency", "frequency", "FREQUENCY", "RMP",
       "rmp", "Rmp", "Energy", "energy", "ENERGY"] := by decide
  have h1 : (7 : Int) * 24 * 60 * 60 * 1000 = 604800000 := by norm_num
  have h2 : ¬(now - 604800000 = 0) := by omega
  have h3 : ¬(now = 0) := by omega
  simp [buildRequest, optTruthyInt, hk, h1, h2, h3, seriesKeys]

theorem buildRequest_monthly (now : Int) (hnow : 2592000000 < now) :
    buildRequest (some seriesKeys) (some (now - 30 * 24 * 60 * 60 * 1000))
      (some now) (some 86400000) (some 30) =
    { keys := some ["Power", "power", "POWER", "Voltage", "voltage",
        "VOLTAGE", "Current", "current", "CURRENT", "Frequency", "frequency",
        "FREQUENCY", "RMP", "rmp", "Rmp", "Energy", "energy", "ENERGY"],
      startTs := some (now - 2592000000), endTs := some now,
      interval := some 86400000, limit := some 30 } := by
  have hk : expand_tb_keys ["power", "voltage", "current", "frequency",
      "rmp", "energy"] =
      ["Power", "power", "POWER", "Voltage", "voltage", "VOLTAGE", "Current",
       "current", "CURRENT", "Frequency", "frequency", "FREQUENCY", "RMP",
       "rmp", "Rmp", "Energy", "energy", "ENERGY"] := by decide
  have h1 : (30 : Int) * 24 * 60 * 60 * 1000 = 2592000000 := by norm_num
  have h2 : ¬(now - 2592000000 = 0) := by omega
  have h3 : ¬(now = 0) := by omega
  simp [buildRequest, optTruthyInt, hk, h1, h2, h3, seriesKeys]

/-- C8: every telemetry query the weekly handler issues carries exactly the
variants of the six canonical keys power, voltage, current, frequency, rmp,
energy (no power-factor variant), the window from now - 7*24*60*60*1000 to
now, interval 3600000 and limit 168; every monthly query carries the same
six keys, the window of 30*24*60*60*1000 ms, interval 86400000 and limit 30;
and with a truthy token and connectivity at least one such query is issued.
The bound on now only excludes the degenerate epoch instants whose
zero-valued parameters Python truthiness would drop. -/
theorem C8_series_query_params (env : Env) (now : Int)
    (hnow : 2592000000 < now) :
    ((∀ r ∈ (get_weekly_telemetry env now initSt).2.requests,
       r.keys = some ["Power", "power", "POWER", "Voltage", "voltage",
         "VOLTAGE", "Current", "current", "CURRENT", "Frequency", "frequency",
         "FREQUENCY", "RMP", "rmp", "Rmp", "Energy", "energy", "ENERGY"] ∧
       (∀ v ∈ tkmGet "powerfact" [], ∀ ks, r.keys = some ks → v ∉ ks) ∧
       r.startTs = some (now - 604800000) ∧ r.endTs = some now ∧
       r.interval = some 3600000 ∧ r.limit = some 168) ∧
     (pyTruthy env.jwt = true → env.internet = true →
       (get_weekly_telemetry env now initSt).2.requests ≠ [])) ∧
    ((∀ r ∈ (get_monthly_telemetry env now initSt).2.requests,
       r.keys = some ["Power", "power", "POWER", "Voltage", "voltage",
         "VOLTAGE", "Current", "current", "CURRENT", "Frequency", "frequency",
         "FREQUENCY", "RMP", "rmp", "Rmp", "Energy", "energy", "ENERGY"] ∧
       (∀ v ∈ tkmGet "powerfact" [], ∀ ks, r.keys = some ks → v ∉ ks) ∧
       r.startTs = some (now - 2592000000) ∧ r.endTs = some now ∧
       r.interval = some 86400000 ∧ r.limit = some 30) ∧
     (pyTruthy env.jwt = true → env.internet = true →
       (get_monthly_telemetry env now initSt).2.requests ≠ [])) := by
  have hbw := buildRequest_weekly now hnow
  have hbm := buildRequest_monthly now hnow
  have hexcl : ∀ v ∈ tkmGet "powerfact" [],
      v ∉ ["Power", "power", "POWER", "Voltage", "voltage", "VOLTAGE",
        "Current", "current", "CURRENT", "Frequency", "frequency",
        "FREQUENCY", "RMP", "rmp", "Rmp", "Energy", "energy", "ENERGY"] := by
    decide
  refine ⟨⟨?_, fun hj hi => handler_requests_weekly_ne env now hj hi⟩,
          ⟨?_, fun hj hi => handler_requests_monthly_ne env now hj hi⟩⟩
  · intro r hr
    have hr2 := handler_requests_weekly env now r hr
    rw [hr2, hbw]
    refine ⟨rfl, ?_, rfl, rfl, rfl, rfl⟩
    intro v hv ks hks
    injection hks with h
    rw [← h]
    exact hexcl v hv
  · intro r hr
    have hr2 := handler_requests_monthly env now r hr
    rw [hr2, hbm]
    refine ⟨rfl, ?_, rfl, rfl, rfl, rfl⟩
    intro v hv ks hks
    injection hks with h
    rw [← h]
    exact hexcl v hv

theorem C8_series_query_params_witness :
    (get_weekly_telemetry envC8 2592000001 initSt).2.requests ≠ [] ∧
    ∀ r ∈ (get_weekly_telemetry envC8 2592000001 initSt).2.requests,
      r.interval = some 3600000 ∧ r.limit = some 168 := by
  have h := C8_series_query_params envC8 2592000001 (by decide)
  exact ⟨h.1.2 rfl rfl,
    fun r hr => ⟨(h.1.1 r hr).2.2.2.2.1, (h.1.1 r hr).2.2.2.2.2⟩⟩

/-- C10: a fetch that succeeds upstream but yields an empty JSON object is
treated identically to a failed fetch on all three endpoints: the handler
answers the HTTP 500 error object with online false in both situations. -/
theorem C10_empty_is_failure (env envF : Env) (now : Int)
    (hjwt : pyTruthy env.jwt = true) (hint : env.internet = true)
    (hempty : env.gets 0 = .resp 200 [])
    (hjwtF : pyTruthy envF.jwt = true)
    (hF : envF.gets 0 = .netErr) :
    (get_telemetry env now initSt).1 =
      .ok (.err 500 "Could not fetch telemetry" false) ∧
    (get_weekly_telemetry env now initSt).1 =
      .ok (.err 500 "Could not fetch weekly telemetry" false) ∧
    (get_monthly_telemetry env now initSt).1 =
      .ok (.err 500 "Could not fetch monthly telemetry" false) ∧
    (get_telemetry envF now initSt).1 =
      .ok (.err 500 "Could not fetch telemetry" false) ∧
    (get_weekly_telemetry envF now initSt).1 =
      .ok (.err 500 "Could not fetch weekly telemetry" false) ∧
    (get_monthly_telemetry envF now initSt).1 =
      .ok (.err 500 "Could not fetch monthly telemetry" false) := by
  refine ⟨?_, ?_, ?_, ?_, ?_, ?_⟩
  · simp [get_telemetry, fetch_telemetry, check_internet_connection, hjwt,
      hint, hempty, errStatus, initSt]
  · simp [get_weekly_telemetry, fetch_telemetry, check_internet_connection,
      hjwt, hint, hempty, errStatus, initSt, get_time_range]
  · simp [get_monthly_telemetry, fetch_telemetry, check_internet_connection,
      hjwt, hint, hempty, errStatus, initSt, get_time_range]
  · by_cases hiF : envF.internet = true
    · simp [get_telemetry, fetch_telemetry, check_internet_connection,
        hjwtF, hiF, hF, initSt]
    · have h2 : envF.internet = false := by simpa using hiF
      simp [get_telemetry, fetch_telemetry, check_internet_connection,
        hjwtF, h2, initSt]
  · by_cases hiF : envF.internet = true
    · simp [get_weekly_telemetry, fetch_telemetry, check_internet_connection,
        hjwtF, hiF, hF, initSt, get_time_range]
    · have h2 : envF.internet = false := by simpa using hiF
      simp [get_weekly_telemetry, fetch_telemetry, check_internet_connection,
        hjwtF, h2, initSt, get_time_range]
  · by_cases hiF : envF.internet = true
    · simp [get_monthly_telemetry, fetch_telemetry, check_internet_connection,
        hjwtF, hiF, hF, initSt, get_time_range]
    · have h2 : envF.internet = false := by simpa using hiF
      simp [get_monthly_telemetry, fetch_telemetry, check_internet_connection,
        hjwtF, h2, initSt, get_time_range]

theorem C10_empty_is_failure_witness :
    (get_telemetry envC10 5 initSt).1 =
      .ok (.err 500 "Could not fetch telemetry" false) ∧
    (get_weekly_telemetry envC10 5 initSt).1 =
      .ok (.err 500 "Could not fetch weekly telemetry" false) ∧
    (get_monthly_telemetry envC10 5 initSt).1 =
      .ok (.err 500 "Could not fetch monthly telemetry" false) ∧
    (get_telemetry envC10f 5 initSt).1 =
      .ok (.err 500 "Could not fetch telemetry" false) ∧
    (get_weekly_telemetry envC10f 5 initSt).1 =
      .ok (.err 500 "Could not fetch weekly telemetry" false) ∧
    (get_monthly_telemetry envC10f 5 initSt).1 =
      .ok (.err 500 "Could not fetch monthly telemetry" false) :=
  C10_empty_is_failure envC10 envC10f 5 rfl rfl rfl rfl rfl

end Innowatt
